import Mathlib

/-!
# Verification of NPM-VersionLib (`src/generate-version.ts`, `src/version-cli.ts`)

Shallow embedding of the version-generation library. External effects are made
explicit parameters:

* the current instant (`JsDate`: calendar fields read off a JS `Date`, plus the
  ISO rendering of the instant used for the `timestamp` field);
* the outcome of the `execSync` git query (`GitQueryResult`: either the call
  threw — git missing, not a repository, non-zero exit — or it produced stdout);
* the `package.json` manifest, as a parsed JSON object (an association list of
  top-level fields).  The `JSON.parse ∘ JSON.stringify` round trip between
  `updatePackageVersion` and `getProjectVersion` is the identity at this level,
  so file I/O is elided.

JS primitives used by the source (`String(n)`, `.padStart(2,'0')`,
`.slice(-2)`, `.trim()`, `.includes(..)`, `.split('-')[0]`, `parseInt`) are
embedded as executable Lean functions below, faithful to their ECMAScript
semantics on the inputs that arise here (integer-valued numbers; double
rounding beyond 2^53 is out of scope).
-/

/-- Decimal digit (or letter, for radices above ten) as a character; `digitChar 0 = '0'`. -/
def digitChar (n : Nat) : Char := Char.ofNat (48 + n)

/-- Fuel-driven decimal digit list of a natural number, most significant first.
`fuel` only needs to exceed the number being rendered. -/
def natDigitsAux : Nat → Nat → List Char
  | 0, _ => []
  | fuel + 1, n =>
    if n < 10 then [digitChar n]
    else natDigitsAux fuel (n / 10) ++ [digitChar (n % 10)]

/-- The decimal digits of `n`, most significant first (JS `String(n)` for a
non-negative integer-valued number). -/
def jsNatDigits (n : Nat) : List Char := natDigitsAux (n + 1) n

/-- JS `String(n)` / `${n}` for a non-negative integer. -/
def jsNatToString (n : Nat) : String := ⟨jsNatDigits n⟩

/-- JS `String(k)` / `${k}` / `k.toString()` for an integer-valued number:
negative values are rendered with a leading minus sign. -/
def jsIntToString (k : Int) : String :=
  if k < 0 then "-" ++ jsNatToString k.natAbs else jsNatToString k.natAbs

/-- The ECMAScript whitespace and line-terminator characters recognised by
`String.prototype.trim` (the ones of code point below `0x10000` that occur in
practice). -/
def jsIsWhitespace (c : Char) : Bool :=
  c == ' ' || c == '\t' || c == '\n' || c == '\r' ||
  c.val == 11 || c.val == 12 || c.val == 160 ||
  c.val == 0x2028 || c.val == 0x2029 || c.val == 0xFEFF

/-- JS `s.trim()`: strip leading and trailing whitespace. -/
def jsTrim (s : String) : String :=
  ⟨((s.data.dropWhile jsIsWhitespace).reverse.dropWhile jsIsWhitespace).reverse⟩

/-- JS `s.padStart(target, c)` (for a single padding character). -/
def jsPadStart (s : String) (target : Nat) (c : Char) : String :=
  ⟨List.replicate (target - s.data.length) c ++ s.data⟩

/-- JS `s.slice(-2)`: the last two characters of `s` (all of `s` when it is
shorter than two characters). -/
def jsSliceNeg2 (s : String) : String :=
  ⟨s.data.drop (s.data.length - 2)⟩

/-- JS `s.split(sep)[0]` for a one-character separator: the characters of `s`
before the first occurrence of `sep` (all of `s` when `sep` does not occur). -/
def jsSplitFirst (s : String) (sep : Char) : String :=
  ⟨s.data.takeWhile (fun c => c != sep)⟩

/-- JS `s.includes(pat)`: substring containment. -/
def jsIncludes (s pat : String) : Bool :=
  (List.range (s.data.length + 1)).any fun i => pat.data.isPrefixOf (s.data.drop i)

/-- Value of `c` as a digit in the given radix (`parseInt` accepts letters of
either case for radices above ten). -/
def digitVal? (radix : Nat) (c : Char) : Option Nat :=
  let v : Nat :=
    if '0' ≤ c ∧ c ≤ '9' then c.toNat - 48
    else if 'a' ≤ c ∧ c ≤ 'z' then c.toNat - 87
    else if 'A' ≤ c ∧ c ≤ 'Z' then c.toNat - 55
    else 99
  if v < radix then some v else none

/-- Accumulate the maximal leading run of digits of the given radix;
`none` when no digit at all was consumed (JS `NaN`). -/
def jsDigitsAcc (radix : Nat) : List Char → Option Nat → Option Nat
  | [], acc => acc
  | c :: rest, acc =>
    match digitVal? radix c with
    | some v => jsDigitsAcc radix rest (some (acc.getD 0 * radix + v))
    | none => acc

/-- JS `parseInt(s [, 10])`: skip leading whitespace, optional sign, then the
maximal run of digits, ignoring anything after it; `none` models `NaN`.  With
`autoHex` (radix argument omitted, as in `getGitCommitCount`) a `0x`/`0X`
prefix switches to hexadecimal. -/
def jsParseIntCore (autoHex : Bool) (s : String) : Option Int :=
  let cs := s.data.dropWhile jsIsWhitespace
  let signed : Bool × List Char :=
    match cs with
    | '-' :: rest => (true, rest)
    | '+' :: rest => (false, rest)
    | _ => (false, cs)
  let based : Nat × List Char :=
    if autoHex then
      match signed.2 with
      | '0' :: 'x' :: rest => (16, rest)
      | '0' :: 'X' :: rest => (16, rest)
      | _ => (10, signed.2)
    else (10, signed.2)
  match jsDigitsAcc based.1 based.2 none with
  | some n => some (if signed.1 then -(n : Int) else (n : Int))
  | none => none

/-- Embeds `parseInt(s, 10)` as used by the CLI. -/
def jsParseInt10 (s : String) : Option Int := jsParseIntCore false s

/-- Embeds `parseInt(s)` with no radix argument, as used by `getGitCommitCount`. -/
def jsParseIntAuto (s : String) : Option Int := jsParseIntCore true s

/-! ## The library (`src/generate-version.ts`) -/

/-- Options record `VersionOptions` (src/generate-version.ts:8-15).  `projectPath` only
chooses the directory the git query runs in, which is abstracted into
`GitQueryResult`, so it is not carried here. -/
structure VersionOptions where
  silent : Bool := false
  overrideCommitCount : Option Int := none
deriving DecidableEq, Repr

/-- The calendar fields the source reads off `new Date()`.  `month` is the
1-based calendar month, i.e. the source's `getMonth() + 1`; `isoString` is the
instant's `toISOString()` rendering (used only for the `timestamp` field). -/
structure JsDate where
  fullYear : Nat
  month : Nat
  day : Nat
  isoString : String
deriving DecidableEq, Repr

/-- Outcome of `execSync(git rev-list --count ...)`: the call either threw
(git not installed, not a repository, non-zero exit) or returned stdout. -/
inductive GitQueryResult
  | throws
  | output (raw : String)
deriving DecidableEq, Repr

/-- Resolver `getGitCommitCount` (src/generate-version.ts:168-177):
`parseInt(execSync(cmd).trim()) || 0`, and `0` when `execSync` throws.
Total by construction — no exception escapes. -/
def getGitCommitCount : GitQueryResult → Int
  | .throws => 0
  | .output raw => (jsParseIntAuto (jsTrim raw)).getD 0

/-- The commit count `generateVersion`/`getVersionInfo` use
(src/generate-version.ts:74-76): the override when present, the git query
otherwise. -/
def resolvedCount (o : VersionOptions) (g : GitQueryResult) : Int :=
  match o.overrideCommitCount with
  | some k => k
  | none => getGitCommitCount g

/-- Whether the conditional at src/generate-version.ts:74-76 takes the branch
that invokes `getGitCommitCount`. -/
def usesGitQuery (o : VersionOptions) : Bool := o.overrideCommitCount.isNone

/-- Date block `` `${year}.${month}.${day}` `` with `year = getFullYear().toString().slice(-2)`,
`month`/`day` rendered and padded to two digits (src/generate-version.ts:68-70,83). -/
def dateVersionOf (dt : JsDate) : String :=
  jsSliceNeg2 (jsNatToString dt.fullYear) ++ "." ++
    jsPadStart (jsNatToString dt.month) 2 '0' ++ "." ++
    jsPadStart (jsNatToString dt.day) 2 '0'

/-- Assembler `generateVersion` (src/generate-version.ts:65-97).  Every step of the
`try` block is total here (the git query's failure is already folded into
`GitQueryResult`), so the `catch` branch returning `undefined` is unreachable
and the result is a plain `String`.  The `silent` flag only gates
`console.warn`/`console.error`, which have no bearing on the result. -/
def generateVersion (releaseType : String) (o : VersionOptions) (dt : JsDate)
    (g : GitQueryResult) : String :=
  let commitCount := resolvedCount o g
  let dateVersion := dateVersionOf dt
  if releaseType = "" ∨ jsTrim releaseType = "" then
    dateVersion ++ "." ++ jsIntToString commitCount
  else
    dateVersion ++ "-" ++ releaseType ++ "." ++ jsIntToString commitCount

/-- Record `VersionInfo` (src/generate-version.ts:20-31). -/
structure VersionInfo where
  version : String
  dateVersion : String
  releaseType : String
  buildNumber : Int
  timestamp : String
deriving DecidableEq, Repr

/-- Function `getVersionInfo` (src/generate-version.ts:118-157).  As with
`generateVersion`, the `catch` branch is unreachable in the embedding. -/
def getVersionInfo (releaseType : String) (o : VersionOptions) (dt : JsDate)
    (g : GitQueryResult) : VersionInfo :=
  let buildNumber := resolvedCount o g
  let dateVersion := dateVersionOf dt
  let actualType := if releaseType = "" ∨ jsTrim releaseType = "" then "release" else releaseType
  let version :=
    if actualType = "release" then dateVersion ++ "." ++ jsIntToString buildNumber
    else dateVersion ++ "-" ++ releaseType ++ "." ++ jsIntToString buildNumber
  ⟨version, dateVersion, actualType, buildNumber, dt.isoString⟩

/-! ## The manifest (`package.json`) -/

/-- JSON values, for the parsed manifest. -/
inductive Json
  | null
  | bool (b : Bool)
  | num (n : Int)
  | str (s : String)
  | arr (xs : List Json)
  | obj (fields : List (String × Json))

/-- A parsed `package.json`: its top-level fields in order. -/
def Manifest : Type := List (String × Json)

/-- JS truthiness of a JSON value (`pkg.version || null`). -/
def jsTruthy : Json → Bool
  | .null => false
  | .bool b => b
  | .num n => n != 0
  | .str s => s != ""
  | .arr _ => true
  | .obj _ => true

/-- JS property assignment `pkg.k = v`: overwrite the field in place when it
exists, append it otherwise. -/
def setField : List (String × Json) → String → Json → List (String × Json)
  | [], k, v => [(k, v)]
  | (k', v') :: rest, k, v =>
    if k' = k then (k, v) :: rest else (k', v') :: setField rest k v

/-- JS property read `pkg.k` on a parsed JSON object (`none` = `undefined`). -/
def getField : List (String × Json) → String → Option Json
  | [], _ => none
  | (k', v) :: rest, k => if k' = k then some v else getField rest k

/-- Writer `updatePackageVersion` (src/generate-version.ts:188-198) at the JSON
level: `pkg.version = newVersion`, then the object is rewritten with 2-space
indentation (`JSON.stringify(pkg, null, 2)`), which re-parses to the same
object, so the result here is the updated object. -/
def updatePackageVersion (newVersion : String) (pkg : Manifest) : Manifest :=
  setField pkg "version" (.str newVersion)

/-- Reader `getProjectVersion` (src/generate-version.ts:42-50) at the JSON level:
`pkg.version || null` on the parsed manifest. -/
def getProjectVersion (pkg : Manifest) : Option Json :=
  match getField pkg "version" with
  | some v => if jsTruthy v then some v else none
  | none => none

/-! ## Generated artifact helpers -/

/-- The display helper in the artifact written by `createVersionFile`
(src/generate-version.ts:258): `BUILD_VERSION.split('-')[0]`, with the
artifact's version constant as its free variable. -/
def createdFileDisplayString (BUILD_VERSION : String) : String :=
  jsSplitFirst BUILD_VERSION '-'

namespace SrcVersionTs

/-- Constant `BUILD_VERSION` of the checked-in artifact `src/src/version.ts` (line 4). -/
def BUILD_VERSION : String := "25.10.01-dev.1"

/-- Helper `getVersionDisplayString` of `src/src/version.ts` (lines 19-21):
`` (`v${BUILD_VERSION}`.split('-')[0]) ?? '' `` — the `?? ''` is dead since
`split` always yields a first element. -/
def getVersionDisplayString : String :=
  jsSplitFirst ("v" ++ BUILD_VERSION) '-'

end SrcVersionTs

/-! ## The CLI (`src/version-cli.ts`) -/

/-- Observable outcome of a CLI run: help text (exit 0), one of the two
validation errors (exit 1, before any version generation), or a generated
version (printed to stdout, manifest updated). -/
inductive CliOutcome
  | help
  | errInvalidType
  | errInvalidCount
  | generated (version : String)
deriving DecidableEq, Repr

/-- Success path of `main` (src/version-cli.ts:89-108): generate the version
(with `silent := false` and the optional override) and update the manifest
(the duplicated `updatePackageVersion` call in the source writes the same
value twice, which is idempotent at the JSON level). -/
def cliRun (arg : String) (ov : Option Int) (dt : JsDate) (g : GitQueryResult)
    (m : Manifest) : CliOutcome × Manifest :=
  let v := generateVersion arg ⟨false, ov⟩ dt g
  (.generated v, updatePackageVersion v m)

/-- Entry point `main` (src/version-cli.ts:56-113).  `arg0` is `process.argv[2] || ''`,
`ccArg0` is `process.argv[3]` (absent = `none`).  The returned manifest is the
manifest after the run (unchanged on every non-success path). -/
def cliMain (arg0 : String) (ccArg0 : Option String) (dt : JsDate)
    (g : GitQueryResult) (m : Manifest) : CliOutcome × Manifest :=
  if jsIncludes arg0 "--help" || jsIncludes arg0 "-h" then (.help, m)
  else if jsIncludes arg0 " " then (.errInvalidType, m)
  else
    -- If the first argument is a (canonically written, non-negative) number,
    -- treat it as the commit count for a release version (lines 71-76).
    let reinterpreted : String × Option String :=
      match jsParseInt10 arg0 with
      | some n =>
        if 0 ≤ n ∧ jsTrim arg0 = jsIntToString n then ("", some arg0)
        else (arg0, ccArg0)
      | none => (arg0, ccArg0)
    let arg := reinterpreted.1
    match reinterpreted.2 with
    | some s =>
      if s = "" then cliRun arg none dt g m   -- `if (commitCountArg)` falsy
      else
        match jsParseInt10 s with
        | some k =>
          if k < 0 then (.errInvalidCount, m)
          else cliRun arg (some k) dt g m
        | none => (.errInvalidCount, m)
    | none => cliRun arg none dt g m


/-! ## Spec-side formats (claim C1's words, for comparison with the code) -/

/-- The claim's `YY`: the last two decimal digits of the year (tens digit then
units digit). -/
def specTwoDigitYear (y : Nat) : String :=
  ⟨[digitChar (y / 10 % 10), digitChar (y % 10)]⟩

/-- The claim's `MM`/`DD`: the component zero-padded to two digits. -/
def specPad2 (n : Nat) : String := jsPadStart (jsNatToString n) 2 '0'

/-- The claim's clean format `YY.MM.DD.N`. -/
def specCleanFormat (y m d n : Nat) : String :=
  specTwoDigitYear y ++ "." ++ specPad2 m ++ "." ++ specPad2 d ++ "." ++ jsNatToString n

/-- The claim's typed format `YY.MM.DD-releaseType.N`. -/
def specTypedFormat (y m d : Nat) (t : String) (n : Nat) : String :=
  specTwoDigitYear y ++ "." ++ specPad2 m ++ "." ++ specPad2 d ++ "-" ++ t ++ "." ++ jsNatToString n

/-! ## Helper lemmas -/

theorem jsTrim_empty : jsTrim "" = "" := rfl

/-- The branch condition at src/generate-version.ts:86 collapses to
"trims to empty". -/
theorem emptyOr_iff (rt : String) : (rt = "" ∨ jsTrim rt = "") ↔ jsTrim rt = "" := by
  constructor
  · rintro (rfl | h)
    · rfl
    · exact h
  · exact Or.inr

theorem natDigitsAux_congr (f₁ : Nat) : ∀ (f₂ n : Nat), n < f₁ → n < f₂ →
    natDigitsAux f₁ n = natDigitsAux f₂ n := by
  induction f₁ with
  | zero => intro f₂ n h1 _; omega
  | succ f ih =>
    intro f₂ n h1 h2
    cases f₂ with
    | zero => omega
    | succ f₂' =>
      simp only [natDigitsAux]
      by_cases hn : n < 10
      · rw [if_pos hn, if_pos hn]
      · rw [if_neg hn, if_neg hn, ih f₂' (n / 10) (by omega) (by omega)]

theorem jsNatDigits_lt (n : Nat) (h : n < 10) : jsNatDigits n = [digitChar n] := by
  simp only [jsNatDigits, natDigitsAux]
  rw [if_pos h]

theorem jsNatDigits_ge (n : Nat) (h : 10 ≤ n) :
    jsNatDigits n = jsNatDigits (n / 10) ++ [digitChar (n % 10)] := by
  simp only [jsNatDigits, natDigitsAux]
  rw [if_neg (by omega)]
  congr 1
  exact natDigitsAux_congr n (n / 10 + 1) (n / 10) (by omega) (by omega)

theorem jsNatDigits_last (n : Nat) :
    ∃ pre, jsNatDigits n = pre ++ [digitChar (n % 10)] := by
  by_cases h : n < 10
  · refine ⟨[], ?_⟩
    rw [Nat.mod_eq_of_lt h, jsNatDigits_lt n h, List.nil_append]
  · exact ⟨jsNatDigits (n / 10), jsNatDigits_ge n (by omega)⟩

theorem jsNatDigits_last_two (n : Nat) (h : 10 ≤ n) :
    ∃ pre, jsNatDigits n = pre ++ [digitChar (n / 10 % 10), digitChar (n % 10)] := by
  obtain ⟨pre, hp⟩ := jsNatDigits_last (n / 10)
  refine ⟨pre, ?_⟩
  rw [jsNatDigits_ge n h, hp, List.append_assoc]
  rfl

/-- The code's `getFullYear().toString().slice(-2)` produces exactly the last
two decimal digits of the year, for years of at least two digits. -/
theorem jsSliceNeg2_year (y : Nat) (h : 10 ≤ y) :
    jsSliceNeg2 (jsNatToString y) = specTwoDigitYear y := by
  obtain ⟨pre, hp⟩ := jsNatDigits_last_two y h
  simp only [jsSliceNeg2, jsNatToString, specTwoDigitYear, hp]
  congr 1
  have hl : (pre ++ [digitChar (y / 10 % 10), digitChar (y % 10)]).length = pre.length + 2 := by
    simp
  rw [hl, Nat.add_sub_cancel, List.drop_left]

theorem jsIntToString_ofNat (n : Nat) : jsIntToString (n : Int) = jsNatToString n := by
  simp only [jsIntToString]
  rw [if_neg (by omega)]
  rw [Int.natAbs_ofNat]

/-! ## Claims -/

/-- C1.  For every calendar date (with an at-least-two-digit year) and every
non-negative build number `N`, `generateVersion` returns exactly `YY.MM.DD.N`
when the release type is empty or whitespace-only, and `YY.MM.DD-releaseType.N`
otherwise, with `YY` the last two decimal digits of the year, `MM`/`DD`
zero-padded to two digits, and `N` unpadded decimal. -/
theorem generateVersion_format (y m d : Nat) (iso rt : String) (o : VersionOptions)
    (g : GitQueryResult) (N : Nat) (hy : 10 ≤ y) (hN : resolvedCount o g = (N : Int)) :
    generateVersion rt o ⟨y, m, d, iso⟩ g =
      if jsTrim rt = "" then specCleanFormat y m d N else specTypedFormat y m d rt N := by
  simp only [generateVersion, dateVersionOf, hN, jsIntToString_ofNat]
  rw [jsSliceNeg2_year y hy]
  by_cases h : jsTrim rt = ""
  · rw [if_pos ((emptyOr_iff rt).mpr h), if_pos h]
    rfl
  · rw [if_neg (fun hc => h ((emptyOr_iff rt).mp hc)), if_neg h]
    rfl

/-- Witness for C1 at 2025-12-26, build 3 resp. 7. -/
theorem generateVersion_format_witness :
    generateVersion "dev" ⟨false, some 3⟩ ⟨2025, 12, 26, "t"⟩ .throws = "25.12.26-dev.3" ∧
    generateVersion "" ⟨false, some 7⟩ ⟨2025, 12, 26, "t"⟩ .throws = "25.12.26.7" := by
  constructor
  · rw [generateVersion_format 2025 12 26 "t" "dev" ⟨false, some 3⟩ .throws 3
      (by decide) (by decide)]
    rfl
  · rw [generateVersion_format 2025 12 26 "t" "" ⟨false, some 7⟩ .throws 7
      (by decide) (by decide)]
    rfl

/-- C2.  With an override present, the git-querying branch is not taken, the
result does not depend on the git history at all, and the build-number
component is exactly the override. -/
theorem generateVersion_override (rt : String) (sil : Bool) (k : Int) (dt : JsDate)
    (g g' : GitQueryResult) :
    usesGitQuery ⟨sil, some k⟩ = false ∧
    generateVersion rt ⟨sil, some k⟩ dt g = generateVersion rt ⟨sil, some k⟩ dt g' ∧
    generateVersion rt ⟨sil, some k⟩ dt g =
      (if rt = "" ∨ jsTrim rt = "" then dateVersionOf dt
       else dateVersionOf dt ++ "-" ++ rt) ++ "." ++ jsIntToString k := by
  refine ⟨rfl, rfl, ?_⟩
  by_cases h : rt = "" ∨ jsTrim rt = "" <;>
    simp [generateVersion, resolvedCount, h]

/-- C3.  Whenever the git query fails (the external call threw, or its output
does not parse as an integer), `getGitCommitCount` returns exactly 0; the
function is total, so no exception escapes. -/
theorem getGitCommitCount_fallback (q : GitQueryResult)
    (h : q = .throws ∨ ∃ raw, q = .output raw ∧ jsParseIntAuto (jsTrim raw) = none) :
    getGitCommitCount q = 0 := by
  rcases h with rfl | ⟨raw, rfl, hp⟩
  · rfl
  · simp [getGitCommitCount, hp]

/-- Witness for C3: a thrown query and an unparsable output both yield 0. -/
theorem getGitCommitCount_fallback_witness :
    getGitCommitCount .throws = 0 ∧
    getGitCommitCount (.output "fatal: not a git repository") = 0 := by
  constructor
  · exact getGitCommitCount_fallback _ (Or.inl rfl)
  · exact getGitCommitCount_fallback _
      (Or.inr ⟨"fatal: not a git repository", rfl, by decide⟩)

/-- C6.  The `silent` flag never changes the returned version string. -/
theorem generateVersion_silent_independent (rt : String) (ov : Option Int) (dt : JsDate)
    (g : GitQueryResult) :
    generateVersion rt ⟨true, ov⟩ dt g = generateVersion rt ⟨false, ov⟩ dt g := by
  cases ov <;> rfl

/-- C10.  The library does not validate the override: any integer, negative
included, is rendered verbatim as the final component; in particular an
override of -5 yields a version ending in `.-5`. -/
theorem generateVersion_negative_override (rt : String) (sil : Bool) (dt : JsDate)
    (g : GitQueryResult) (k : Int) :
    generateVersion rt ⟨sil, some k⟩ dt g =
      (if rt = "" ∨ jsTrim rt = "" then dateVersionOf dt
       else dateVersionOf dt ++ "-" ++ rt) ++ "." ++ jsIntToString k ∧
    generateVersion "" ⟨sil, some (-5)⟩ dt g = dateVersionOf dt ++ ".-5" := by
  constructor
  · by_cases h : rt = "" ∨ jsTrim rt = "" <;>
      simp [generateVersion, resolvedCount, h]
  · show dateVersionOf dt ++ "." ++ jsIntToString (-5) = dateVersionOf dt ++ ".-5"
    rw [String.append_assoc]
    rfl

theorem getField_setField_self (m : List (String × Json)) (k : String) (v : Json) :
    getField (setField m k v) k = some v := by
  induction m with
  | nil => simp [setField, getField]
  | cons p rest ih =>
    obtain ⟨k₀, v₀⟩ := p
    by_cases h : k₀ = k
    · simp [setField, getField, h]
    · simp [setField, getField, h, ih]

theorem getField_setField_other (m : List (String × Json)) (k k' : String) (v : Json)
    (h : k' ≠ k) : getField (setField m k v) k' = getField m k' := by
  induction m with
  | nil => simp [setField, getField, Ne.symm h]
  | cons p rest ih =>
    obtain ⟨k₀, v₀⟩ := p
    by_cases h0 : k₀ = k
    · subst h0
      simp [setField, getField, Ne.symm h]
    · simp only [setField, getField, if_neg h0]
      by_cases h1 : k₀ = k'
      · simp [getField, h1]
      · simp [getField, h1, ih]

/-- C4 counterexample: updating a well-formed manifest with the version string
`""` and reading it back yields `null`, not `""` — `pkg.version || null`
(src/generate-version.ts:46) maps the falsy empty string to `null`, so the
round trip fails for the empty version string. -/
theorem manifest_roundtrip_cex :
    getProjectVersion (updatePackageVersion ""
        [("name", Json.str "x"), ("version", Json.str "0.0.1")]) = none ∧
    (none : Option Json) ≠ some (Json.str "") :=
  ⟨rfl, fun h => Option.noConfusion h⟩

/-- C4 (amended).  For every non-empty version string `V` and every parsed
manifest, updating with `V` and reading back yields `V`, and every top-level
field other than `version` is unchanged. -/
theorem manifest_roundtrip (m : Manifest) (V : String) (h : V ≠ "") :
    getProjectVersion (updatePackageVersion V m) = some (.str V) ∧
    ∀ k, k ≠ "version" → getField (updatePackageVersion V m) k = getField m k := by
  constructor
  · simp only [getProjectVersion, updatePackageVersion, getField_setField_self]
    simp [jsTruthy, h]
  · intro k hk
    exact getField_setField_other m "version" k (.str V) hk

/-- Witness for C4 on the spec's own scenario manifest. -/
theorem manifest_roundtrip_witness :
    getProjectVersion (updatePackageVersion "25.01.01.1"
        [("name", Json.str "x"), ("version", Json.str "0.0.1")]) =
      some (Json.str "25.01.01.1") ∧
    getField (updatePackageVersion "25.01.01.1"
        [("name", Json.str "x"), ("version", Json.str "0.0.1")]) "name" =
      some (Json.str "x") := by
  have h := manifest_roundtrip [("name", Json.str "x"), ("version", Json.str "0.0.1")]
      "25.01.01.1" (by decide)
  refine ⟨h.1, ?_⟩
  rw [h.2 "name" (by decide)]
  rfl

theorem takeWhile_all_eq {α : Type} (p : α → Bool) (l : List α) (h : l.all p = true) :
    l.takeWhile p = l := by
  induction l with
  | nil => rfl
  | cons a t ih =>
    simp only [List.all_cons, Bool.and_eq_true] at h
    simp [List.takeWhile_cons, h.1, ih h.2]

/-- C5 counterexample: the checked-in artifact `src/src/version.ts` does not
return the substring of its version before the first hyphen — it prepends a
`v`, yielding `"v25.10.01"` instead of `"25.10.01"`. -/
theorem displayString_cex :
    SrcVersionTs.getVersionDisplayString = "v25.10.01" ∧
    jsSplitFirst SrcVersionTs.BUILD_VERSION '-' = "25.10.01" ∧
    ("v25.10.01" : String) ≠ "25.10.01" :=
  ⟨rfl, rfl, by decide⟩

/-- C5 (amended).  The display helper in artifacts written by
`createVersionFile` returns the substring before the first hyphen
(`"25.12.26-dev.3"` yields `"25.12.26"`; hyphen-free input is returned
unchanged), while the checked-in artifact `src/src/version.ts` instead
returns `"v"` prepended to that substring of its version. -/
theorem displayString_amended (v : String) (hv : v.data.all (fun c => c != '-') = true) :
    createdFileDisplayString "25.12.26-dev.3" = "25.12.26" ∧
    createdFileDisplayString v = v ∧
    SrcVersionTs.getVersionDisplayString =
      "v" ++ jsSplitFirst SrcVersionTs.BUILD_VERSION '-' := by
  refine ⟨rfl, ?_, rfl⟩
  simp only [createdFileDisplayString, jsSplitFirst]
  rw [takeWhile_all_eq _ _ hv]

/-- Witness for C5 on the spec's hyphen-free example. -/
theorem displayString_amended_witness :
    createdFileDisplayString "25.12.26.3" = "25.12.26.3" :=
  (displayString_amended "25.12.26.3" (by decide)).2.1

/-- C7 counterexample: `main` only rejects arguments containing a space
character, via `arg.includes(' ')` (src/version-cli.ts:65).  A release type
containing a tab is accepted and a version is generated for it, and an
argument containing a space together with the substring `-h` reaches the help
branch (exit 0) first instead of the error branch. -/
theorem cli_whitespace_cex :
    ("a\tb".data.any jsIsWhitespace = true) ∧
    (cliMain "a\tb" none ⟨2025, 12, 26, "t"⟩ .throws []).1 = .generated "25.12.26-a\tb.0" ∧
    ("x -h".data.any jsIsWhitespace = true) ∧
    (cliMain "x -h" none ⟨2025, 12, 26, "t"⟩ .throws []).1 = .help := by
  refine ⟨by decide, rfl, by decide, rfl⟩

/-- C7 (amended).  Whenever the CLI's first argument contains a space
character (and does not contain the substring `--help` or `-h`, which is
checked first and shows help), `main` reports the invalid-type error and
exits 1 before any version generation, leaving the manifest untouched. -/
theorem cli_space_rejected (arg : String) (cc : Option String) (dt : JsDate)
    (g : GitQueryResult) (m : Manifest)
    (hsp : jsIncludes arg " " = true)
    (hH : jsIncludes arg "--help" = false) (hh : jsIncludes arg "-h" = false) :
    cliMain arg cc dt g m = (.errInvalidType, m) := by
  simp [cliMain, hsp, hH, hh]

/-- Witness for C7 on the spec's scenario (argument with a space). -/
theorem cli_space_rejected_witness :
    cliMain "a b" none ⟨2025, 12, 26, "t"⟩ .throws [] = (.errInvalidType, []) :=
  cli_space_rejected "a b" none ⟨2025, 12, 26, "t"⟩ .throws []
    (by decide) (by decide) (by decide)

/-- C8.  A numeric-looking non-empty release type (such as `"0"`) is an
ordinary type label for the library — `generateVersion` returns the
hyphenated form — while the CLI reinterprets a bare canonical non-negative
integer first argument as an empty release type with that integer as the
commit-count override. -/
theorem numeric_type_vs_cli (dt : JsDate) (g : GitQueryResult) (m : Manifest)
    (o : VersionOptions) (rt : String) (hrt : jsTrim rt ≠ "")
    (s : String) (k : Int)
    (hp : jsParseInt10 s = some k) (hk : 0 ≤ k) (ht : jsTrim s = jsIntToString k)
    (hH : jsIncludes s "--help" = false) (hh : jsIncludes s "-h" = false)
    (hsp : jsIncludes s " " = false) :
    generateVersion rt o dt g =
      dateVersionOf dt ++ "-" ++ rt ++ "." ++ jsIntToString (resolvedCount o g) ∧
    cliMain s none dt g m = cliRun "" (some k) dt g m := by
  constructor
  · simp only [generateVersion]
    rw [if_neg (fun hc => hrt ((emptyOr_iff rt).mp hc))]
  · have hs : s ≠ "" := by
      intro h0
      rw [h0, show jsParseInt10 "" = none from rfl] at hp
      exact Option.noConfusion hp
    simp only [cliMain, hH, hh, hsp, Bool.or_self, Bool.false_eq_true, if_false, hp]
    rw [if_pos ⟨hk, ht⟩]
    simp only [if_neg hs, hp]
    rw [if_neg (by omega)]

/-- Witness for C8: release type `"0"` versus CLI argument `"42"`. -/
theorem numeric_type_vs_cli_witness :
    generateVersion "0" ⟨false, none⟩ ⟨2025, 12, 26, "t"⟩ .throws = "25.12.26-0.0" ∧
    (cliMain "42" none ⟨2025, 12, 26, "t"⟩ .throws []).1 = .generated "25.12.26.42" := by
  have h := numeric_type_vs_cli ⟨2025, 12, 26, "t"⟩ .throws [] ⟨false, none⟩ "0"
      (by decide) "42" 42 (by decide) (by decide) (by decide)
      (by decide) (by decide) (by decide)
  refine ⟨?_, ?_⟩
  · rw [h.1]
    rfl
  · rw [h.2]
    rfl

/-- C9.  `getVersionInfo` special-cases the literal release type `"release"`
to the clean `YY.MM.DD.N` format, while `generateVersion` with the same
inputs returns the hyphenated `YY.MM.DD-release.N`; for every other release
type that does not trim to empty, the two agree. -/
theorem versionInfo_release_special (dt : JsDate) (g : GitQueryResult) (o : VersionOptions)
    (rt : String) (hrt : jsTrim rt ≠ "") :
    (getVersionInfo "release" o dt g).version =
      dateVersionOf dt ++ "." ++ jsIntToString (resolvedCount o g) ∧
    generateVersion "release" o dt g =
      dateVersionOf dt ++ "-" ++ "release" ++ "." ++ jsIntToString (resolvedCount o g) ∧
    (rt ≠ "release" → (getVersionInfo rt o dt g).version = generateVersion rt o dt g) := by
  have hrel : ¬(("release" : String) = "" ∨ jsTrim "release" = "") := by decide
  refine ⟨?_, ?_, ?_⟩
  · simp [getVersionInfo, hrel]
  · simp only [generateVersion]
    rw [if_neg hrel]
  · intro hne
    have hc : ¬(rt = "" ∨ jsTrim rt = "") := fun hc => hrt ((emptyOr_iff rt).mp hc)
    simp [getVersionInfo, generateVersion, hc, hne]

/-- Witness for C9 at release type `"release"` versus `"dev"`. -/
theorem versionInfo_release_special_witness :
    (getVersionInfo "release" ⟨false, some 2⟩ ⟨2025, 12, 26, "t"⟩ .throws).version =
      "25.12.26.2" ∧
    generateVersion "release" ⟨false, some 2⟩ ⟨2025, 12, 26, "t"⟩ .throws =
      "25.12.26-release.2" ∧
    (getVersionInfo "dev" ⟨false, some 2⟩ ⟨2025, 12, 26, "t"⟩ .throws).version =
      generateVersion "dev" ⟨false, some 2⟩ ⟨2025, 12, 26, "t"⟩ .throws := by
  have h := versionInfo_release_special ⟨2025, 12, 26, "t"⟩ .throws ⟨false, some 2⟩
      "dev" (by decide)
  refine ⟨?_, ?_, h.2.2 (by decide)⟩
  · rw [h.1]
    rfl
  · rw [h.2.1]
    rfl
